import Mathlib

/-!
Verification of `src/rsid_to_hs37d5.py`: a resolver that maps a SNP rsID to
hs37d5 genomic coordinates via two external JSON services (MyVariant.info and
the Ensembl GRCh37 REST API), together with a batch runner and a formatter.

The embedding is shallow.  Service responses are modelled as parsed JSON of the
shapes the Python code inspects (dict-vs-list coordinate payloads, optional
keys); the network is modelled as an oracle function from the requested rsID to
a `ServiceOutcome`.  Python `None` is modelled by `Option`, Python dict-key
absence by an outer `Option` where the code distinguishes absence from `None`
(via `in` / `.get`).  Field values are modelled in the types the code expects
of the services: chromosome names as strings (post `str()` conversion),
positions as integers.
-/

/-- Python `s.startswith(pre)`: `pre` is a character-prefix of `s`.
Embeds the `rsid.startswith('rs')` checks. -/
def pyStartswith (s pre : String) : Bool :=
  pre.data.isPrefixOf s.data

/-- The rsID normalization done at the top of `get_hs37d5_loci`,
`get_hs37d5_loci_myvariant`, `get_hs37d5_loci_ensembl` and `batch_get_loci`:
`if not rsid.startswith('rs'): rsid = f"rs{rsid}"`. -/
def pyNormalize (rsid : String) : String :=
  if pyStartswith rsid "rs" then rsid else "rs" ++ rsid

/-- Python `str.replace('chr', '')` on a character list: every non-overlapping
occurrence of `"chr"` is removed, scanning left to right. -/
def stripChrList : List Char → List Char
  | [] => []
  | 'c' :: 'h' :: 'r' :: rest => stripChrList rest
  | c :: rest => c :: stripChrList rest

/-- Python `name.replace('chr', '')`, as applied to chromosome names in both
service parsers. -/
def removeChr (s : String) : String :=
  ⟨stripChrList s.data⟩

/-- Python `s.split('/')` on a character list (nonempty separator `"/"`):
always returns at least one (possibly empty) piece. -/
def splitSlashList : List Char → List (List Char)
  | [] => [[]]
  | '/' :: rest => [] :: splitSlashList rest
  | c :: rest =>
    match splitSlashList rest with
    | g :: gs => (c :: g) :: gs
    | [] => [[c]]

/-- Python `allele_string.split('/')` from the Ensembl parser. -/
def pySplitSlash (s : String) : List String :=
  (splitSlashList s.data).map (fun l => ⟨l⟩)

/-- Python `','.join(xs)` from `format_loci`. -/
def joinComma : List String → String
  | [] => ""
  | [s] => s
  | s :: rest => s ++ "," ++ joinComma rest

/-- Python `str()` / f-string rendering of a value that is either `None` or a
string. -/
def pyShowOptStr : Option String → String
  | none => "None"
  | some s => s

/-- Python `str()` / f-string rendering of a value that is either `None` or an
integer. -/
def pyShowOptInt : Option Int → String
  | none => "None"
  | some n => toString n

/-- Python truthiness of a string-or-`None` value (`None` and `''` are falsy),
as used by `if result['chromosome'] and result['position']`. -/
def truthyOptStr : Option String → Bool
  | none => false
  | some s => decide (s ≠ "")

/-- Python truthiness of an integer-or-`None` value (`None` and `0` are falsy). -/
def truthyOptInt : Option Int → Bool
  | none => false
  | some n => decide (n ≠ 0)

/-- The `result` dict both resolvers build.  All six keys are present in every
record a resolver constructs; `ref_allele` is modelled with key-presence
(`Option (Option String)`) and `alt_alleles` with key-presence
(`Option (List String)`) because `format_loci` reads those two keys with
`.get` and a default, so a hand-made dict lacking the key behaves differently
from one holding `None`. -/
structure LocusRecord where
  rsid : String
  chromosome : Option String
  position : Option Int
  ref_allele : Option (Option String)
  alt_alleles : Option (List String)
  build : String
deriving DecidableEq, Repr

/-- Outcome of one HTTP GET as the Python code distinguishes them: a 404
(`notFound`), any `requests.exceptions.RequestException` including
`raise_for_status` failures and timeouts (`transportError`), or a parsed JSON
body (`ok`). -/
inductive ServiceOutcome (α : Type) where
  | notFound
  | transportError
  | ok (data : α)
deriving DecidableEq, Repr

/-- The `data['dbsnp']['hg19']` value in a MyVariant response: a dict, a list
of dicts, or some other JSON type (which the code ignores). -/
inductive Hg19Data where
  | obj (o : Option String × Option Int)
  | arr (l : List (Option String × Option Int))
  | other
deriving DecidableEq, Repr

/-- The `data['dbsnp']['alt']` value: a single string or a list of strings. -/
inductive AltVal where
  | str (s : String)
  | list (l : List String)
deriving DecidableEq, Repr

/-- The `data['dbsnp']` object of a MyVariant response.  `hg19` is `none` when
the key is absent; in a coordinate pair the first component is the `chr` value
(after `str()`; `none` = key absent, so `.get('chr','')` yields `""`) and the
second is the `start` value (`none` = key absent or JSON null). -/
structure DbsnpData where
  hg19 : Option Hg19Data
  ref : Option String
  alt : Option AltVal
deriving DecidableEq, Repr

/-- A parsed MyVariant response body; `dbsnp := none` models the key being
absent. -/
structure MVResponse where
  dbsnp : Option DbsnpData
deriving DecidableEq, Repr

/-- One element of the `mappings` list in an Ensembl response. -/
structure EnsMapping where
  seq_region_name : Option String
  start : Option Int
  allele_string : Option String
deriving DecidableEq, Repr

/-- A parsed Ensembl response body; `mappings := none` models the key being
absent. -/
structure EnsResponse where
  mappings : Option (List EnsMapping)
deriving DecidableEq, Repr

/-- Lines 36-64 of `get_hs37d5_loci_myvariant`: build the `result` dict from
the parsed body.  Coordinates are taken from `dbsnp.hg19` whether it is a dict
or a nonempty list (first element); `ref`/`alt` are read only inside the same
`'dbsnp' in data and 'hg19' in data['dbsnp']` guard; a string `alt` is wrapped
in a singleton list. -/
def mvExtract (rsid : String) (data : MVResponse) : LocusRecord :=
  let base : LocusRecord :=
    ⟨rsid, none, none, some none, some [], "hs37d5"⟩
  match data.dbsnp with
  | none => base
  | some db =>
    match db.hg19 with
    | none => base
    | some hg =>
      let r1 :=
        match hg with
        | .obj o =>
          { base with chromosome := some (removeChr (o.1.getD ""))
                      position := o.2 }
        | .arr (o :: _) =>
          { base with chromosome := some (removeChr (o.1.getD ""))
                      position := o.2 }
        | .arr [] => base
        | .other => base
      let r2 :=
        match db.ref with
        | none => r1
        | some s => { r1 with ref_allele := some (some s) }
      match db.alt with
      | none => r2
      | some (.str s) => { r2 with alt_alleles := some [s] }
      | some (.list l) => { r2 with alt_alleles := some l }

/-- `get_hs37d5_loci_myvariant`: normalize the rsID, issue the request (the
oracle `net` stands for the HTTP GET on the normalized rsID), treat 404 and
transport errors as `None`, otherwise parse and return the record only if both
chromosome and position are truthy. -/
def get_hs37d5_loci_myvariant (rsid : String)
    (net : String → ServiceOutcome MVResponse) : Option LocusRecord :=
  let rsid := pyNormalize rsid
  match net rsid with
  | .notFound => none
  | .transportError => none
  | .ok data =>
    let result := mvExtract rsid data
    if truthyOptStr result.chromosome && truthyOptInt result.position then
      some result
    else
      none

/-- Lines 95-116 of `get_hs37d5_loci_ensembl`: build the `result` dict from
the parsed body, using the first element of `mappings` when nonempty;
`allele_string` is split on `/`, the first piece becoming the reference allele
and the remainder (when any) the alternates. -/
def ensExtract (rsid : String) (data : EnsResponse) : LocusRecord :=
  let base : LocusRecord :=
    ⟨rsid, none, none, some none, some [], "hs37d5"⟩
  match data.mappings with
  | some (m :: _) =>
    let r1 :=
      { base with chromosome := some (removeChr (m.seq_region_name.getD ""))
                  position := m.start }
    match m.allele_string with
    | none => r1
    | some astr =>
      let alleles := pySplitSlash astr
      let r2 :=
        match alleles with
        | a :: _ => { r1 with ref_allele := some (some a) }
        | [] => r1
      if alleles.length > 1 then { r2 with alt_alleles := some alleles.tail }
      else r2
  | _ => base

/-- `get_hs37d5_loci_ensembl`: same shape as the MyVariant resolver, over the
Ensembl response schema. -/
def get_hs37d5_loci_ensembl (rsid : String)
    (net : String → ServiceOutcome EnsResponse) : Option LocusRecord :=
  let rsid := pyNormalize rsid
  match net rsid with
  | .notFound => none
  | .transportError => none
  | .ok data =>
    let result := ensExtract rsid data
    if truthyOptStr result.chromosome && truthyOptInt result.position then
      some result
    else
      none

/-- Result of `get_hs37d5_loci`: the returned optional record, or the
`ValueError(f"Unknown method: {method}")` raised for an unrecognized method. -/
inductive MethodResult where
  | ok (r : Option LocusRecord)
  | invalidArgument (msg : String)
deriving DecidableEq, Repr

/-- `get_hs37d5_loci`: normalize, then dispatch on the method string:
`'myvariant'`, `'ensembl'`, or `'auto'` (MyVariant first, Ensembl on `None`);
anything else raises `ValueError`. -/
def get_hs37d5_loci (rsid method : String)
    (mvNet : String → ServiceOutcome MVResponse)
    (ensNet : String → ServiceOutcome EnsResponse) : MethodResult :=
  let rsid := pyNormalize rsid
  if method = "myvariant" then
    .ok (get_hs37d5_loci_myvariant rsid mvNet)
  else if method = "ensembl" then
    .ok (get_hs37d5_loci_ensembl rsid ensNet)
  else if method = "auto" then
    match get_hs37d5_loci_myvariant rsid mvNet with
    | some r => .ok (some r)
    | none => .ok (get_hs37d5_loci_ensembl rsid ensNet)
  else
    .invalidArgument ("Unknown method: " ++ method)

/-- Python dict assignment `results[rsid] = result` on an insertion-ordered
association list: an existing key keeps its position and gets the new value, a
new key is appended. -/
def dictInsert (m : List (String × LocusRecord)) (k : String)
    (v : LocusRecord) : List (String × LocusRecord) :=
  if m.any (fun p => p.1 = k) then
    m.map (fun p => if p.1 = k then (k, v) else p)
  else
    m ++ [(k, v)]

/-- The loop of `batch_get_loci`: normalize each rsID, resolve it, store a
non-`None` result under the normalized key, and let a raised `ValueError`
propagate (there is no `try` around the call).  The `time.sleep` throttle has
no observable effect on the result and is not modelled. -/
def batchGo (method : String)
    (mvNet : String → ServiceOutcome MVResponse)
    (ensNet : String → ServiceOutcome EnsResponse) :
    List String → List (String × LocusRecord) →
    Except String (List (String × LocusRecord))
  | [], acc => .ok acc
  | r :: rest, acc =>
    let k := pyNormalize r
    match get_hs37d5_loci k method mvNet ensNet with
    | .invalidArgument msg => .error msg
    | .ok none => batchGo method mvNet ensNet rest acc
    | .ok (some v) => batchGo method mvNet ensNet rest (dictInsert acc k v)

/-- `batch_get_loci`: fold the loop over the input list starting from the
empty `results` dict. -/
def batch_get_loci (rsid_list : List String) (method : String)
    (mvNet : String → ServiceOutcome MVResponse)
    (ensNet : String → ServiceOutcome EnsResponse) :
    Except String (List (String × LocusRecord)) :=
  batchGo method mvNet ensNet rsid_list []

/-- `format_loci`: a falsy (`None`) record renders `"Not found"`; otherwise
chromosome and position are rendered by the f-string (`None` renders as
`"None"`), `ref` is `loci.get('ref_allele', 'N/A')` (the `'N/A'` default
applies only when the key is absent; a present `None` renders `"None"`), and
`alt` is `','.join(loci.get('alt_alleles', [])) or 'N/A'`.  Style `'hs37d5'`
omits the `chr` prefix; every other style string takes the `else` branch. -/
def format_loci (loci : Option LocusRecord) (style : String) : String :=
  match loci with
  | none => "Not found"
  | some l =>
    let chrom := pyShowOptStr l.chromosome
    let pos := pyShowOptInt l.position
    let ref :=
      match l.ref_allele with
      | none => "N/A"
      | some v => pyShowOptStr v
    let joined := joinComma (l.alt_alleles.getD [])
    let alt := if joined = "" then "N/A" else joined
    if style = "hs37d5" then
      chrom ++ ":" ++ pos ++ " (" ++ ref ++ "/" ++ alt ++ ")"
    else
      "chr" ++ chrom ++ ":" ++ pos ++ " (" ++ ref ++ "/" ++ alt ++ ")"

/-- Prepending the literal prefix always yields a string that passes the
Python `startswith('rs')` test. -/
lemma startsWith_rs_append (s : String) : pyStartswith ("rs" ++ s) "rs" = true := by
  have h : ("rs" ++ s).data = 'r' :: 's' :: s.data := by
    rw [String.data_append]; rfl
  simp [pyStartswith, h, List.isPrefixOf]

/-- The rs-prefix normalization is idempotent (shared helper). -/
lemma pyNormalize_idem (s : String) : pyNormalize (pyNormalize s) = pyNormalize s := by
  unfold pyNormalize
  by_cases h : pyStartswith s "rs" = true
  · simp [h]
  · simp [h, startsWith_rs_append]

/-- A truthy string-or-`None` value is not `None`. -/
lemma truthyOptStr_ne_none {o : Option String} (h : truthyOptStr o = true) : o ≠ none := by
  cases o <;> simp [truthyOptStr] at h ⊢

/-- A truthy integer-or-`None` value is not `None`. -/
lemma truthyOptInt_ne_none {o : Option Int} (h : truthyOptInt o = true) : o ≠ none := by
  cases o <;> simp [truthyOptInt] at h ⊢

/-- Claim C2: for every identifier and every service response, each
single-service resolver (MyVariant, the spec's service A, and Ensembl, the
spec's service B) returns either a record in which both chromosome and
position are present, or `none`; it never returns a record with exactly one
of chromosome/position present. -/
theorem claim_C2 :
    (∀ (rsid : String) (net : String → ServiceOutcome MVResponse) (r : LocusRecord),
       get_hs37d5_loci_myvariant rsid net = some r →
       r.chromosome ≠ none ∧ r.position ≠ none) ∧
    (∀ (rsid : String) (net : String → ServiceOutcome EnsResponse) (r : LocusRecord),
       get_hs37d5_loci_ensembl rsid net = some r →
       r.chromosome ≠ none ∧ r.position ≠ none) := by
  constructor
  · intro rsid net r h
    simp only [get_hs37d5_loci_myvariant] at h
    split at h
    · cases h
    · cases h
    · split at h
      case isTrue hc =>
        rw [Bool.and_eq_true] at hc
        obtain ⟨h1, h2⟩ := hc
        cases h
        exact ⟨truthyOptStr_ne_none h1, truthyOptInt_ne_none h2⟩
      case isFalse => cases h
  · intro rsid net r h
    simp only [get_hs37d5_loci_ensembl] at h
    split at h
    · cases h
    · cases h
    · split at h
      case isTrue hc =>
        rw [Bool.and_eq_true] at hc
        obtain ⟨h1, h2⟩ := hc
        cases h
        exact ⟨truthyOptStr_ne_none h1, truthyOptInt_ne_none h2⟩
      case isFalse => cases h

/-- Claim C6: the prefix normalization (prepend `rs` when the string does not
start with it) is idempotent: applying it twice yields the same string as
applying it once. -/
theorem claim_C6 (s : String) : pyNormalize (pyNormalize s) = pyNormalize s :=
  pyNormalize_idem s

/-- Claim C7: a MyVariant coordinate-mapping value parsed as a bare object
and the same value wrapped in a one-element list produce identical
`LocusRecord`s, both at the parse step and through the whole resolver. -/
theorem claim_C7 (rsid : String) (o : Option String × Option Int)
    (rf : Option String) (al : Option AltVal) :
    mvExtract rsid ⟨some ⟨some (.obj o), rf, al⟩⟩ =
      mvExtract rsid ⟨some ⟨some (.arr [o]), rf, al⟩⟩ ∧
    get_hs37d5_loci_myvariant rsid (fun _ => .ok ⟨some ⟨some (.obj o), rf, al⟩⟩) =
      get_hs37d5_loci_myvariant rsid (fun _ => .ok ⟨some ⟨some (.arr [o]), rf, al⟩⟩) :=
  ⟨rfl, rfl⟩

/-- Witness for claim C2 at a concrete MyVariant response. -/
theorem claim_C2_witness :
    ({ rsid := "rs1", chromosome := some "1", position := some 100,
       ref_allele := some none, alt_alleles := some [],
       build := "hs37d5" } : LocusRecord).chromosome ≠ none ∧
    ({ rsid := "rs1", chromosome := some "1", position := some 100,
       ref_allele := some none, alt_alleles := some [],
       build := "hs37d5" } : LocusRecord).position ≠ none :=
  claim_C2.1 "rs1"
    (fun _ => .ok ⟨some ⟨some (.obj (some "1", some 100)), none, none⟩⟩) _
    (by decide)

/-- Claim C10: the resolver's validity check is by Python truthiness, not
key presence: an intermediate record whose chromosome is the empty string or
whose position is the integer 0 is treated as not found by both services,
even though both fields are present in the intermediate record. -/
theorem claim_C10 :
    (∀ (rsid : String) (data : MVResponse),
       (mvExtract (pyNormalize rsid) data).chromosome = some "" ∨
         (mvExtract (pyNormalize rsid) data).position = some 0 →
       get_hs37d5_loci_myvariant rsid (fun _ => .ok data) = none) ∧
    (∀ (rsid : String) (data : EnsResponse),
       (ensExtract (pyNormalize rsid) data).chromosome = some "" ∨
         (ensExtract (pyNormalize rsid) data).position = some 0 →
       get_hs37d5_loci_ensembl rsid (fun _ => .ok data) = none) := by
  constructor
  · intro rsid data h
    simp only [get_hs37d5_loci_myvariant]
    rcases h with h | h <;> rw [h] <;> simp [truthyOptStr, truthyOptInt]
  · intro rsid data h
    simp only [get_hs37d5_loci_ensembl]
    rcases h with h | h <;> rw [h] <;> simp [truthyOptStr, truthyOptInt]

/-- Witness for claim C10: a MyVariant response with `start = 0` and an
Ensembl response whose `seq_region_name` strips to the empty string both
resolve to `none`. -/
theorem claim_C10_witness :
    get_hs37d5_loci_myvariant "rs1"
      (fun _ => .ok ⟨some ⟨some (.obj (some "1", some 0)), none, none⟩⟩) = none ∧
    get_hs37d5_loci_ensembl "rs1"
      (fun _ => .ok ⟨some [⟨some "chr", some 50, none⟩]⟩) = none :=
  ⟨claim_C10.1 "rs1" ⟨some ⟨some (.obj (some "1", some 0)), none, none⟩⟩
     (Or.inr (by decide)),
   claim_C10.2 "rs1" ⟨some [⟨some "chr", some 50, none⟩]⟩
     (Or.inl (by decide))⟩

/-- Claim C9: for every non-absent record and every style other than
`'hs37d5'` — including arbitrary unrecognized style strings — the formatter
renders the standard chr-prefixed form rather than raising an error. -/
theorem claim_C9 (l : LocusRecord) (style : String) (h : style ≠ "hs37d5") :
    format_loci (some l) style = format_loci (some l) "standard" ∧
    format_loci (some l) style =
      "chr" ++ pyShowOptStr l.chromosome ++ ":" ++ pyShowOptInt l.position ++
        " (" ++
        (match l.ref_allele with
         | none => "N/A"
         | some v => pyShowOptStr v) ++ "/" ++
        (if joinComma (l.alt_alleles.getD []) = "" then "N/A"
         else joinComma (l.alt_alleles.getD [])) ++ ")" := by
  simp only [format_loci]
  rw [if_neg h, if_neg (show ("standard" : String) ≠ "hs37d5" from by decide)]
  exact ⟨rfl, rfl⟩

/-- Witness for claim C9 at an unrecognized style string. -/
theorem claim_C9_witness :
    format_loci
        (some { rsid := "rs1", chromosome := some "1", position := some 100,
                ref_allele := some (some "A"), alt_alleles := some ["C"],
                build := "hs37d5" }) "totally-unknown-style" =
      format_loci
        (some { rsid := "rs1", chromosome := some "1", position := some 100,
                ref_allele := some (some "A"), alt_alleles := some ["C"],
                build := "hs37d5" }) "standard" :=
  (claim_C9 _ "totally-unknown-style" (by decide)).1

/-- Comma-joining two or more strings never yields the empty string. -/
lemma joinComma_cons₂_ne_empty (a b : String) (t : List String) :
    joinComma (a :: b :: t) ≠ "" := by
  intro h
  have h2 := congrArg String.data h
  simp only [joinComma, String.data_append] at h2
  simp at h2

/-- Counterexample to claim C1 as stated: a record the MyVariant resolver
constructs when the service supplies no `ref` value carries the `ref_allele`
key with value `None`, and `format_loci` renders `None`, not `N/A`, in the
reference-allele slot (in both styles). -/
theorem claim_C1_counterexample :
    get_hs37d5_loci_myvariant "rs1"
        (fun _ => .ok ⟨some ⟨some (.obj (some "1", some 100)), none, none⟩⟩) =
      some { rsid := "rs1", chromosome := some "1", position := some 100,
             ref_allele := some none, alt_alleles := some [],
             build := "hs37d5" } ∧
    format_loci
        (get_hs37d5_loci_myvariant "rs1"
          (fun _ => .ok ⟨some ⟨some (.obj (some "1", some 100)), none, none⟩⟩))
        "standard" = "chr1:100 (None/N/A)" ∧
    format_loci
        (get_hs37d5_loci_myvariant "rs1"
          (fun _ => .ok ⟨some ⟨some (.obj (some "1", some 100)), none, none⟩⟩))
        "standard" ≠ "chr1:100 (N/A/N/A)" ∧
    format_loci
        (get_hs37d5_loci_myvariant "rs1"
          (fun _ => .ok ⟨some ⟨some (.obj (some "1", some 100)), none, none⟩⟩))
        "hs37d5" = "1:100 (None/N/A)" := by
  refine ⟨by decide, by decide, by decide, by decide⟩

/-- Claim C1 (amended): the `N/A` default for the reference-allele slot
applies only when the `ref_allele` key is absent from the dict; every record
the resolver constructs carries the key, and when it is unset (`None`) the
formatter renders the literal `None` in both styles.  An empty `alt_alleles`
sequence renders as `N/A`, and multiple alternates are comma-joined. -/
theorem claim_C1_amended (rsid c b : String) (p : Int)
    (al : Option (List String)) (a1 a2 : String) (t : List String) :
    format_loci
        (some { rsid := rsid, chromosome := some c, position := some p,
                ref_allele := some none, alt_alleles := al, build := b })
        "standard" =
      "chr" ++ c ++ ":" ++ toString p ++ " (" ++ "None" ++ "/" ++
        (if joinComma (al.getD []) = "" then "N/A" else joinComma (al.getD [])) ++
        ")" ∧
    format_loci
        (some { rsid := rsid, chromosome := some c, position := some p,
                ref_allele := some none, alt_alleles := al, build := b })
        "hs37d5" =
      c ++ ":" ++ toString p ++ " (" ++ "None" ++ "/" ++
        (if joinComma (al.getD []) = "" then "N/A" else joinComma (al.getD [])) ++
        ")" ∧
    format_loci
        (some { rsid := rsid, chromosome := some c, position := some p,
                ref_allele := none, alt_alleles := al, build := b })
        "standard" =
      "chr" ++ c ++ ":" ++ toString p ++ " (" ++ "N/A" ++ "/" ++
        (if joinComma (al.getD []) = "" then "N/A" else joinComma (al.getD [])) ++
        ")" ∧
    format_loci
        (some { rsid := rsid, chromosome := some c, position := some p,
                ref_allele := some none, alt_alleles := some [], build := b })
        "hs37d5" =
      c ++ ":" ++ toString p ++ " (" ++ "None" ++ "/" ++ "N/A" ++ ")" ∧
    format_loci
        (some { rsid := rsid, chromosome := some c, position := some p,
                ref_allele := some none, alt_alleles := some (a1 :: a2 :: t),
                build := b })
        "hs37d5" =
      c ++ ":" ++ toString p ++ " (" ++ "None" ++ "/" ++
        joinComma (a1 :: a2 :: t) ++ ")" ∧
    joinComma (a1 :: a2 :: t) = a1 ++ "," ++ joinComma (a2 :: t) := by
  refine ⟨?_, ?_, ?_, ?_, ?_, rfl⟩
  · simp [format_loci, pyShowOptStr, pyShowOptInt]
  · simp [format_loci, pyShowOptStr, pyShowOptInt]
  · simp [format_loci, pyShowOptStr, pyShowOptInt]
  · simp [format_loci, pyShowOptStr, pyShowOptInt, joinComma]
  · simp only [format_loci, pyShowOptStr, pyShowOptInt, Option.getD]
    rw [if_neg (joinComma_cons₂_ne_empty a1 a2 t)]
    simp

/-- Counterexample to claim C8 as stated: the chromosome name `1chr` does
not start with `chr`, yet the resolver stores `1`, not the unchanged name,
because `str.replace('chr', '')` removes every occurrence. -/
theorem claim_C8_counterexample :
    pyStartswith "1chr" "chr" = false ∧
    get_hs37d5_loci_myvariant "rs1"
        (fun _ => .ok ⟨some ⟨some (.obj (some "1chr", some 100)), none, none⟩⟩) =
      some { rsid := "rs1", chromosome := some "1", position := some 100,
             ref_allele := some none, alt_alleles := some [],
             build := "hs37d5" } ∧
    (get_hs37d5_loci_myvariant "rs1"
        (fun _ => .ok ⟨some ⟨some (.obj (some "1chr", some 100)), none, none⟩⟩)).map
        LocusRecord.chromosome ≠ some (some "1chr") := by
  refine ⟨by decide, by decide, by decide⟩

/-- Claim C8 (amended): the chromosome stored in a returned record equals
the arriving name with every non-overlapping occurrence of `chr` removed
(left to right), for both services — not merely a leading prefix. -/
theorem claim_C8_amended :
    (∀ (rsid name : String) (st : Option Int) (rf : Option String)
       (al : Option AltVal) (r : LocusRecord),
       get_hs37d5_loci_myvariant rsid
           (fun _ => .ok ⟨some ⟨some (.obj (some name, st)), rf, al⟩⟩) = some r →
       r.chromosome = some (removeChr name)) ∧
    (∀ (rsid name : String) (st : Option Int) (astr : Option String)
       (r : LocusRecord),
       get_hs37d5_loci_ensembl rsid
           (fun _ => .ok ⟨some [⟨some name, st, astr⟩]⟩) = some r →
       r.chromosome = some (removeChr name)) := by
  constructor
  · intro rsid name st rf al r h
    simp only [get_hs37d5_loci_myvariant] at h
    split at h
    case isTrue hc =>
      cases h
      clear hc
      cases rf <;> cases al <;> try rfl
      case some.some a => cases a <;> rfl
      case none.some a => cases a <;> rfl
    case isFalse => cases h
  · intro rsid name st astr r h
    simp only [get_hs37d5_loci_ensembl] at h
    split at h
    case isTrue hc =>
      cases h
      clear hc
      cases astr
      · rfl
      case some a =>
        simp only [ensExtract]
        split <;> split <;> rfl
    case isFalse => cases h

/-- Witness for amended claim C8 at the concrete name `chr7`. -/
theorem claim_C8_amended_witness :
    ({ rsid := "rs1", chromosome := some "7", position := some 100,
       ref_allele := some none, alt_alleles := some [],
       build := "hs37d5" } : LocusRecord).chromosome =
      some (removeChr "chr7") :=
  claim_C8_amended.1 "rs1" "chr7" (some 100) none none _ (by decide)

/-- Claim C3: resolving with the `auto` method returns the result of
MyVariant when it yields a record and otherwise the result of Ensembl: the
auto result is the first non-absent of the pair, and is absent only when
both are absent. -/
theorem claim_C3 (rsid : String)
    (mvNet : String → ServiceOutcome MVResponse)
    (ensNet : String → ServiceOutcome EnsResponse) :
    get_hs37d5_loci rsid "auto" mvNet ensNet =
      .ok (match get_hs37d5_loci_myvariant rsid mvNet with
           | some r => some r
           | none => get_hs37d5_loci_ensembl rsid ensNet) ∧
    (get_hs37d5_loci rsid "auto" mvNet ensNet = .ok none ↔
       get_hs37d5_loci_myvariant rsid mvNet = none ∧
         get_hs37d5_loci_ensembl rsid ensNet = none) := by
  have hmv : get_hs37d5_loci_myvariant (pyNormalize rsid) mvNet =
      get_hs37d5_loci_myvariant rsid mvNet := by
    simp only [get_hs37d5_loci_myvariant, pyNormalize_idem]
  have hens : get_hs37d5_loci_ensembl (pyNormalize rsid) ensNet =
      get_hs37d5_loci_ensembl rsid ensNet := by
    simp only [get_hs37d5_loci_ensembl, pyNormalize_idem]
  constructor
  · simp only [get_hs37d5_loci, hmv, hens]
    rw [if_neg (show ("auto" : String) ≠ "myvariant" from by decide),
        if_neg (show ("auto" : String) ≠ "ensembl" from by decide),
        if_pos trivial]
    cases get_hs37d5_loci_myvariant rsid mvNet <;> rfl
  · simp only [get_hs37d5_loci, hmv, hens]
    rw [if_neg (show ("auto" : String) ≠ "myvariant" from by decide),
        if_neg (show ("auto" : String) ≠ "ensembl" from by decide),
        if_pos trivial]
    cases get_hs37d5_loci_myvariant rsid mvNet <;> simp

/-- Claim C4: for every method value other than `myvariant`, `ensembl` and
`auto`, the resolver raises `ValueError("Unknown method: ...")` to its
immediate caller, and the batch runner does not catch it. -/
theorem claim_C4 (rsid method : String)
    (mvNet : String → ServiceOutcome MVResponse)
    (ensNet : String → ServiceOutcome EnsResponse)
    (rsid_list : List String)
    (hm1 : method ≠ "myvariant") (hm2 : method ≠ "ensembl")
    (hm3 : method ≠ "auto") (hne : rsid_list ≠ []) :
    get_hs37d5_loci rsid method mvNet ensNet =
      .invalidArgument ("Unknown method: " ++ method) ∧
    batch_get_loci rsid_list method mvNet ensNet =
      .error ("Unknown method: " ++ method) := by
  have hdisp : ∀ x, get_hs37d5_loci x method mvNet ensNet =
      .invalidArgument ("Unknown method: " ++ method) := by
    intro x
    simp only [get_hs37d5_loci]
    rw [if_neg hm1, if_neg hm2, if_neg hm3]
  refine ⟨hdisp rsid, ?_⟩
  cases rsid_list with
  | nil => exact absurd rfl hne
  | cons r rest =>
    simp only [batch_get_loci, batchGo, hdisp]

/-- Witness for claim C4 at the concrete method string `bogus`. -/
theorem claim_C4_witness :
    get_hs37d5_loci "rs1" "bogus"
        (fun _ => .notFound) (fun _ => .notFound) =
      .invalidArgument ("Unknown method: " ++ "bogus") ∧
    batch_get_loci ["rs1"] "bogus"
        (fun _ => .notFound) (fun _ => .notFound) =
      .error ("Unknown method: " ++ "bogus") :=
  claim_C4 "rs1" "bogus" (fun _ => .notFound) (fun _ => .notFound) ["rs1"]
    (by decide) (by decide) (by decide) (by decide)

/-- A recognized method selector never raises: the dispatch returns `.ok`. -/
lemma dispatch_ok_of_valid (method : String)
    (mvNet : String → ServiceOutcome MVResponse)
    (ensNet : String → ServiceOutcome EnsResponse)
    (hm : method = "myvariant" ∨ method = "ensembl" ∨ method = "auto")
    (x : String) :
    ∃ o, get_hs37d5_loci x method mvNet ensNet = .ok o := by
  rcases hm with h | h | h <;> subst h <;> simp only [get_hs37d5_loci]
  · exact ⟨_, by rw [if_pos trivial]⟩
  · exact ⟨_, by
      rw [if_neg (show ¬("ensembl" : String) = "myvariant" from by decide),
          if_pos trivial]⟩
  · rcases hx : get_hs37d5_loci_myvariant (pyNormalize x) mvNet with _ | r
    · refine ⟨get_hs37d5_loci_ensembl (pyNormalize x) ensNet, ?_⟩
      rw [if_neg (show ¬("auto" : String) = "myvariant" from by decide),
          if_neg (show ¬("auto" : String) = "ensembl" from by decide),
          if_pos trivial]
    · refine ⟨some r, ?_⟩
      rw [if_neg (show ¬("auto" : String) = "myvariant" from by decide),
          if_neg (show ¬("auto" : String) = "ensembl" from by decide),
          if_pos trivial]

/-- Dict assignment preserves a per-entry invariant. -/
lemma dictInsert_pred (P : String × LocusRecord → Prop)
    (acc : List (String × LocusRecord)) (k : String) (v : LocusRecord)
    (hacc : ∀ p ∈ acc, P p) (hkv : P (k, v)) :
    ∀ p ∈ dictInsert acc k v, P p := by
  intro p hp
  unfold dictInsert at hp
  split at hp
  · obtain ⟨q, hq, he⟩ := List.mem_map.1 hp
    by_cases hqk : q.1 = k
    · rw [if_pos hqk] at he
      exact he ▸ hkv
    · rw [if_neg hqk] at he
      exact he ▸ hacc q hq
  · rcases List.mem_append.1 hp with h | h
    · exact hacc p h
    · have hpe : p = (k, v) := by simpa using h
      exact hpe ▸ hkv

/-- Key membership after a dict assignment: the new key, plus the old keys. -/
lemma dictInsert_key_mem (acc : List (String × LocusRecord))
    (k : String) (v : LocusRecord) (q : String) :
    (∃ w, (q, w) ∈ dictInsert acc k v) ↔ q = k ∨ ∃ w, (q, w) ∈ acc := by
  unfold dictInsert
  split
  case isTrue hany =>
    constructor
    · rintro ⟨w, hw⟩
      obtain ⟨p, hp, he⟩ := List.mem_map.1 hw
      by_cases hpk : p.1 = k
      · rw [if_pos hpk] at he
        cases he
        exact Or.inl rfl
      · rw [if_neg hpk] at he
        exact Or.inr ⟨w, he ▸ hp⟩
    · rintro (rfl | ⟨w, hw⟩)
      · rw [List.any_eq_true] at hany
        obtain ⟨p, hp, hpk⟩ := hany
        rw [decide_eq_true_iff] at hpk
        exact ⟨v, List.mem_map.2 ⟨p, hp, by rw [if_pos hpk]⟩⟩
      · by_cases hqk : q = k
        · subst hqk
          exact ⟨v, List.mem_map.2 ⟨(q, w), hw, by rw [if_pos rfl]⟩⟩
        · exact ⟨w, List.mem_map.2 ⟨(q, w), hw, by rw [if_neg hqk]⟩⟩
  case isFalse hany =>
    constructor
    · rintro ⟨w, hw⟩
      rcases List.mem_append.1 hw with h | h
      · exact Or.inr ⟨w, h⟩
      · have hpe : (q, w) = (k, v) := by simpa using h
        cases hpe
        exact Or.inl rfl
    · rintro (rfl | ⟨w, hw⟩)
      · exact ⟨v, List.mem_append.2 (Or.inr (by simp))⟩
      · exact ⟨w, List.mem_append.2 (Or.inl hw)⟩

/-- Loop invariant of `batch_get_loci`: with a recognized method the loop
never errors, every stored entry is the result of resolving its key, and the
keys are the normalized input identifiers whose lookup yielded a record
(plus the keys of the accumulator). -/
lemma batchGo_spec (method : String)
    (mvNet : String → ServiceOutcome MVResponse)
    (ensNet : String → ServiceOutcome EnsResponse)
    (hvalid : ∀ x, ∃ o, get_hs37d5_loci x method mvNet ensNet = .ok o) :
    ∀ (l : List String) (acc : List (String × LocusRecord)),
    (∀ p ∈ acc, get_hs37d5_loci p.1 method mvNet ensNet = .ok (some p.2)) →
    ∃ m, batchGo method mvNet ensNet l acc = .ok m ∧
      (∀ p ∈ m, get_hs37d5_loci p.1 method mvNet ensNet = .ok (some p.2)) ∧
      (∀ k, (∃ v, (k, v) ∈ m) ↔
        ((∃ v, (k, v) ∈ acc) ∨
          ∃ r ∈ l, pyNormalize r = k ∧
            ∃ v, get_hs37d5_loci k method mvNet ensNet = .ok (some v))) := by
  intro l
  induction l with
  | nil =>
    intro acc hacc
    exact ⟨acc, rfl, hacc, fun k => by simp⟩
  | cons r rest ih =>
    intro acc hacc
    obtain ⟨o, ho⟩ := hvalid (pyNormalize r)
    cases o with
    | none =>
      obtain ⟨m, hm, hmval, hkeys⟩ := ih acc hacc
      refine ⟨m, ?_, hmval, ?_⟩
      · simp only [batchGo, ho, hm]
      · intro k
        rw [hkeys k]
        constructor
        · rintro (h | ⟨r', hr', hrest⟩)
          · exact Or.inl h
          · exact Or.inr ⟨r', List.mem_cons_of_mem _ hr', hrest⟩
        · rintro (h | ⟨r', hr', hnorm, w, hw⟩)
          · exact Or.inl h
          · rcases List.mem_cons.1 hr' with rfl | hr'
            · rw [hnorm] at ho
              rw [ho] at hw
              cases hw
            · exact Or.inr ⟨r', hr', hnorm, w, hw⟩
    | some v =>
      have hacc' : ∀ p ∈ dictInsert acc (pyNormalize r) v,
          get_hs37d5_loci p.1 method mvNet ensNet = .ok (some p.2) :=
        dictInsert_pred
          (fun p => get_hs37d5_loci p.1 method mvNet ensNet = .ok (some p.2))
          acc (pyNormalize r) v hacc ho
      obtain ⟨m, hm, hmval, hkeys⟩ := ih (dictInsert acc (pyNormalize r) v) hacc'
      refine ⟨m, ?_, hmval, ?_⟩
      · simp only [batchGo, ho, hm]
      · intro k
        rw [hkeys k, dictInsert_key_mem]
        constructor
        · rintro ((rfl | h) | ⟨r', hr', hnorm, w, hw⟩)
          · exact Or.inr ⟨r, List.mem_cons_self r rest, rfl, v, ho⟩
          · exact Or.inl h
          · exact Or.inr ⟨r', List.mem_cons_of_mem _ hr', hnorm, w, hw⟩
        · rintro (h | ⟨r', hr', hnorm, w, hw⟩)
          · exact Or.inl (Or.inr h)
          · rcases List.mem_cons.1 hr' with rfl | hr'
            · exact Or.inl (Or.inl hnorm.symm)
            · exact Or.inr ⟨r', hr', hnorm, w, hw⟩

/-- Claim C5: for every input list and every per-identifier outcome (under a
recognized method), the batch runner returns a mapping containing exactly
the normalized identifiers whose lookup yielded a record, each mapped to
that record; identifiers whose lookup yielded `none` are omitted, and no
exception is propagated from a failed lookup — one identifier's failure
never prevents the remaining identifiers from being processed. -/
theorem claim_C5 (rsid_list : List String) (method : String)
    (mvNet : String → ServiceOutcome MVResponse)
    (ensNet : String → ServiceOutcome EnsResponse)
    (hm : method = "myvariant" ∨ method = "ensembl" ∨ method = "auto") :
    ∃ m, batch_get_loci rsid_list method mvNet ensNet = .ok m ∧
      (∀ p ∈ m, get_hs37d5_loci p.1 method mvNet ensNet = .ok (some p.2)) ∧
      (∀ k, (∃ v, (k, v) ∈ m) ↔
         ∃ r ∈ rsid_list, pyNormalize r = k ∧
           ∃ v, get_hs37d5_loci k method mvNet ensNet = .ok (some v)) := by
  obtain ⟨m, h1, h2, h3⟩ :=
    batchGo_spec method mvNet ensNet
      (dispatch_ok_of_valid method mvNet ensNet hm) rsid_list [] (by simp)
  exact ⟨m, h1, h2, fun k => by simpa using h3 k⟩

/-- Witness for claim C5: the spec's scenario — `rs1` succeeds, `rs2` fails
— under the `auto` method. -/
theorem claim_C5_witness :
    ∃ m, batch_get_loci ["rs1", "rs2"] "auto"
        (fun r => if r = "rs1"
          then .ok ⟨some ⟨some (.obj (some "1", some 100)), none, none⟩⟩
          else .notFound)
        (fun _ => .notFound) = .ok m ∧
      (∀ p ∈ m, get_hs37d5_loci p.1 "auto"
        (fun r => if r = "rs1"
          then .ok ⟨some ⟨some (.obj (some "1", some 100)), none, none⟩⟩
          else .notFound)
        (fun _ => .notFound) = .ok (some p.2)) ∧
      (∀ k, (∃ v, (k, v) ∈ m) ↔
         ∃ r ∈ ["rs1", "rs2"], pyNormalize r = k ∧
           ∃ v, get_hs37d5_loci k "auto"
             (fun r => if r = "rs1"
               then .ok ⟨some ⟨some (.obj (some "1", some 100)), none, none⟩⟩
               else .notFound)
             (fun _ => .notFound) = .ok (some v)) :=
  claim_C5 ["rs1", "rs2"] "auto"
    (fun r => if r = "rs1"
      then .ok ⟨some ⟨some (.obj (some "1", some 100)), none, none⟩⟩
      else .notFound)
    (fun _ => .notFound) (Or.inr (Or.inr rfl))
